import Mathlib

/-!
Shallow embedding of `src/seed.py` (the breadcrumbs seeding utility).

The Python module talks to three external collaborators:
* a SQLAlchemy session (`db.session`) over two tables, `cities` and
  `restaurants`, modelled here as a `Session` record of committed rows,
  pending (staged, uncommitted) rows, and the two id-generation sequences;
* the Yelp search API, modelled as a pure function `Env.api` from city name
  and offset to a `SearchResponse`, guarded by a credential file whose
  readability is the flag `Env.credsOk` (`get_restaurants` re-reads the
  credential file on every call, exactly as the source does);
* Python exception propagation, modelled with `Except`; an error carries the
  `PState` at the moment the exception is raised, since the database keeps
  whatever was committed before the exception.

Every externally visible action (API fetch, session commit) is recorded in a
trace so that claims about call counts and durability points are statable.
The `while 1000 > offset < total_results` loop of `load_restaurants` is
embedded with an explicit fuel argument; offsets start at 0 and advance by
20 below the hard ceiling 1000, so fuel 50 is provably never exhausted
(`loop_spec` shows the loop always exits with the loop condition false).
-/

namespace Seed

/-- Row of the `cities` table: `City(name=...)` with generated `city_id`. -/
structure City where
  city_id : Nat
  name : String
deriving DecidableEq, Repr

/-- `business.location.coordinate` of a Yelp response. -/
structure Coordinate where
  latitude : Int
  longitude : Int
deriving DecidableEq, Repr

/-- `business.location` of a Yelp response. -/
structure Location where
  display_address : List String
  coordinate : Coordinate
deriving DecidableEq, Repr

/-- One business object of a Yelp search response. -/
structure Business where
  name : String
  location : Location
  display_phone : String
  image_url : String
deriving DecidableEq, Repr

/-- Yelp `SearchResponse`: a `total` count and one page of businesses. -/
structure SearchResponse where
  total : Nat
  businesses : List Business
deriving DecidableEq, Repr

/-- Row data of the `restaurants` table as constructed by `load_restaurants`
(`Restaurant(city_id=..., name=..., address=..., phone=..., image_url=...,
latitude=..., longitude=...)`); the generated `restaurant_id` is attached at
commit time, so it is not a field here. -/
structure Restaurant where
  city_id : Nat
  name : String
  address : String
  phone : String
  image_url : String
  latitude : Int
  longitude : Int
deriving DecidableEq, Repr

/-- The state of `db.session` plus the durable database: committed rows of
both tables, rows staged with `session.add` but not yet committed, and the
two id-generation sequences (`next id to assign`). -/
structure Session where
  cities : List City
  restaurants : List (Nat × Restaurant)
  pendingCities : List String
  pendingRests : List Restaurant
  citySeq : Nat
  restSeq : Nat
deriving DecidableEq, Repr

/-- Observable events of one run: an API fetch at a given offset, or a
`db.session.commit()` recording the durable store right after the commit. -/
inductive Ev where
  | fetch : Nat → Ev
  | commitEv : List City → List (Nat × Restaurant) → Ev
deriving DecidableEq, Repr

/-- Program state threaded through the embedding: session plus event trace. -/
structure PState where
  sess : Session
  trace : List Ev
deriving DecidableEq, Repr

/-- The exceptions the source can raise: `MultipleResultsFound` escaping the
`.one()` call of `get_city_id`, an I/O or auth failure reading
`config_secret.json`, and the `TypeError` of `int(None)` in
`set_val_restaurant_id` when the `restaurants` table is empty. -/
inductive SeedErr where
  | multipleResultsFound
  | credentialError
  | typeError
deriving DecidableEq, Repr

/-- Result of SQLAlchemy `Query.one()`: the unique row, or the
`NoResultFound` / `MultipleResultsFound` exception. -/
inductive OneResult (α : Type) where
  | found : α → OneResult α
  | noResultFound : OneResult α
  | multipleResultsFound : OneResult α
deriving DecidableEq, Repr

/-- `.one()` on the result list of a query. -/
def queryOne {α : Type} : List α → OneResult α
  | [x] => OneResult.found x
  | [] => OneResult.noResultFound
  | _ => OneResult.multipleResultsFound

/-- `db.session.commit()`: persist all staged rows, assigning consecutive ids
from the corresponding sequence, and clear the pending sets. -/
def Session.commit (s : Session) : Session where
  cities := s.cities ++ s.pendingCities.enum.map
    (fun p => { city_id := s.citySeq + p.1, name := p.2 })
  restaurants := s.restaurants ++ s.pendingRests.enum.map
    (fun p => (s.restSeq + p.1, p.2))
  pendingCities := []
  pendingRests := []
  citySeq := s.citySeq + s.pendingCities.length
  restSeq := s.restSeq + s.pendingRests.length

/-- Commit the session and record the commit event (with the durable store
right after the commit) in the trace. -/
def doCommit (st : PState) : PState :=
  let s := st.sess.commit
  { sess := s, trace := st.trace ++ [Ev.commitEv s.cities s.restaurants] }

/-- `get_city_id(city)` of `seed.py`: query the `cities` table by exact name
with `.one()`; on `NoResultFound`, `add` a new `City`, `commit`, and return
its freshly generated id; any other query outcome propagates. The returned
id in the create branch is the id the staged city receives at commit
(`new_city.city_id` read back after `commit`). -/
def get_city_id (st : PState) (city : String) :
    Except (SeedErr × PState) (Nat × PState) :=
  match queryOne (st.sess.cities.filter (fun c => c.name == city)) with
  | OneResult.found existing => Except.ok (existing.city_id, st)
  | OneResult.noResultFound =>
      let stAdd : PState := { st with sess :=
        { st.sess with pendingCities := st.sess.pendingCities ++ [city] } }
      let newId : Nat := st.sess.citySeq + st.sess.pendingCities.length
      Except.ok (newId, doCommit stAdd)
  | OneResult.multipleResultsFound =>
      Except.error (SeedErr.multipleResultsFound, st)

/-- External environment of one run: whether `config_secret.json` is present
and well formed, and the Yelp API as a function of city and offset. -/
structure Env where
  credsOk : Bool
  api : String → Nat → SearchResponse

/-- `get_restaurants(city, offset)`: read the credential file (failure
propagates before any request is made), then call `client.search` with
`term='restaurant'` and the given offset; the fetch is recorded in the
trace. -/
def get_restaurants (env : Env) (st : PState) (city : String) (offset : Nat) :
    Except SeedErr (SearchResponse × PState) :=
  if env.credsOk then
    Except.ok (env.api city offset,
      { st with trace := st.trace ++ [Ev.fetch offset] })
  else
    Except.error SeedErr.credentialError

/-- Body of the `for business in ...businesses` loop: build a `Restaurant`
from one business object (address joined with spaces, as
`" ".join(business.location.display_address)`). -/
def restaurantOf (city_id : Nat) (b : Business) : Restaurant where
  city_id := city_id
  name := b.name
  address := String.intercalate " " b.location.display_address
  phone := b.display_phone
  image_url := b.image_url
  latitude := b.location.coordinate.latitude
  longitude := b.location.coordinate.longitude

/-- Stage one page of businesses with `db.session.add(restaurant)` each. -/
def stageAll (city_id : Nat) (bs : List Business) (st : PState) : PState :=
  { st with sess := { st.sess with
      pendingRests := st.sess.pendingRests ++ bs.map (restaurantOf city_id) } }

/-- The `while 1000 > offset < total_results` loop of `load_restaurants`:
while the offset is below both the hard ceiling 1000 and the reported total,
fetch the page at the current offset, stage every business of the page, and
advance the offset by 20.  The loop is embedded with explicit fuel; when the
fuel hits zero the current offset and state are returned unchanged, and
`loop_spec` proves that from offset 0 with fuel 50 this case is never
reached (the loop always exits through the condition test).  Returns the
final offset together with the state; a fetch failure propagates with the
state at the time of the exception. -/
def loop (env : Env) (city : String) (city_id total : Nat) :
    Nat → Nat → PState → Except (SeedErr × PState) (Nat × PState)
  | 0, offset, st => Except.ok (offset, st)
  | fuel + 1, offset, st =>
    if offset < 1000 ∧ offset < total then
      match get_restaurants env st city offset with
      | Except.error e => Except.error (e, st)
      | Except.ok (resp, st1) =>
          loop env city city_id total fuel (offset + 20)
            (stageAll city_id resp.businesses st1)
    else Except.ok (offset, st)

/-- `load_restaurants(city)` of `seed.py`: resolve the city id, make one
initial fetch at offset 0 reading only `total`, run the pagination loop
from offset 0, and finally `db.session.commit()`. -/
def load_restaurants (env : Env) (city : String) (st : PState) :
    Except (SeedErr × PState) PState :=
  match get_city_id st city with
  | Except.error e => Except.error e
  | Except.ok (city_id, st1) =>
    match get_restaurants env st1 city 0 with
    | Except.error e => Except.error (e, st1)
    | Except.ok (resp0, st2) =>
      match loop env city city_id resp0.total 50 0 st2 with
      | Except.error e => Except.error e
      | Except.ok (_, st3) => Except.ok (doCommit st3)

/-- `set_val_restaurant_id()` of `seed.py`: take the maximum committed
`restaurant_id` (the `int(result[0])` of the `func.max` query raises
`TypeError` on an empty table, where SQL `MAX` is `NULL`), set the backing
sequence so that the next generated id is `max + 1`, and commit. -/
def set_val_restaurant_id (st : PState) : Except (SeedErr × PState) PState :=
  match (st.sess.restaurants.map Prod.fst).max? with
  | none => Except.error (SeedErr.typeError, st)
  | some max_id =>
      Except.ok (doCommit
        { st with sess := { st.sess with restSeq := max_id + 1 } })

/-- The offset of a fetch event, if the event is a fetch. -/
def Ev.fetchOffset : Ev → Option Nat
  | Ev.fetch o => some o
  | _ => none

/-- Offsets of the API fetches of a trace, in order. -/
def fetchOffsets (t : List Ev) : List Nat := t.filterMap Ev.fetchOffset

/-- Whether an event is a `db.session.commit()`. -/
def Ev.isCommit : Ev → Bool
  | Ev.commitEv _ _ => true
  | _ => false

/-- Number of commits in a trace. -/
def commitCount (t : List Ev) : Nat := (t.filter Ev.isCommit).length

/-- Number of iterations the pagination loop performs from offset `o` for a
reported total `total`: the pages between `o` and `min total 1000`, in steps
of 20. -/
def nIters (total o : Nat) : Nat := (min total 1000 - o + 19) / 20

/-- The offsets of `n` consecutive loop iterations starting at offset `o`. -/
def loopOffsets (o n : Nat) : List Nat :=
  (List.range n).map (fun i => o + 20 * i)

/-! ### Concrete scenarios used by witnesses and counterexamples -/

/-- A fresh, empty database: no rows, both sequences at 1. -/
def pstate0 : PState where
  sess :=
    { cities := [], restaurants := [], pendingCities := [], pendingRests := []
    , citySeq := 1, restSeq := 1 }
  trace := []

/-- A database already holding the city `Sunnyvale` with id 7. -/
def stSunnyvale : PState where
  sess :=
    { cities := [{ city_id := 7, name := "Sunnyvale" }], restaurants := []
    , pendingCities := [], pendingRests := [], citySeq := 8, restSeq := 1 }
  trace := []

/-- A database holding two city rows that share the name `Sunnyvale`. -/
def stDup : PState where
  sess :=
    { cities := [{ city_id := 1, name := "Sunnyvale" },
                 { city_id := 2, name := "Sunnyvale" }]
    , restaurants := [], pendingCities := [], pendingRests := []
    , citySeq := 3, restSeq := 1 }
  trace := []

/-- A dummy restaurant row for witness instantiations. -/
def rRow : Restaurant where
  city_id := 7
  name := "A"
  address := "1 Main St"
  phone := "p"
  image_url := "u"
  latitude := 37
  longitude := -122

/-- Sample businesses returned by the API scenarios. -/
def b1 : Business where
  name := "A"
  location :=
    { display_address := ["1 Main St", "Sunnyvale"]
    , coordinate := { latitude := 37, longitude := -122 } }
  display_phone := "p1"
  image_url := "u1"

def b2 : Business where
  name := "B"
  location :=
    { display_address := ["2 Main St"]
    , coordinate := { latitude := 37, longitude := -122 } }
  display_phone := "p2"
  image_url := "u2"

def b3 : Business where
  name := "C"
  location :=
    { display_address := ["3 Main St"]
    , coordinate := { latitude := 37, longitude := -122 } }
  display_phone := "p3"
  image_url := "u3"

/-- API that reports zero results; credentials fine. -/
def env0 : Env where
  credsOk := true
  api := fun _ _ => { total := 0, businesses := [] }

/-- API reporting total 5 with one business per page; credentials fine. -/
def env5 : Env where
  credsOk := true
  api := fun _ _ => { total := 5, businesses := [b1] }

/-- API reporting total 45; credentials fine. -/
def env45 : Env where
  credsOk := true
  api := fun _ _ => { total := 45, businesses := [] }

/-- API reporting total 2000; credentials fine. -/
def env2000 : Env where
  credsOk := true
  api := fun _ _ => { total := 2000, businesses := [] }

/-- API reporting total 3, serving a page of 1 record at offset 0 and a page
of 2 records at offset 20; credentials fine. -/
def env6 : Env where
  credsOk := true
  api := fun _ o =>
    if o == 0 then { total := 3, businesses := [b1] }
    else if o == 20 then { total := 3, businesses := [b2, b3] }
    else { total := 3, businesses := [] }

/-- A missing or malformed credential file: every fetch raises. -/
def env9 : Env where
  credsOk := false
  api := fun _ _ => { total := 0, businesses := [] }

/-! ### Basic lemmas about traces and the session primitives -/

theorem fetchOffsets_append (s t : List Ev) :
    fetchOffsets (s ++ t) = fetchOffsets s ++ fetchOffsets t := by
  simp [fetchOffsets]

theorem fetchOffsets_map_fetch (l : List Nat) :
    fetchOffsets (l.map Ev.fetch) = l := by
  have h : Ev.fetchOffset ∘ Ev.fetch = some := by funext o; rfl
  simp [fetchOffsets, h]

theorem commitCount_append (s t : List Ev) :
    commitCount (s ++ t) = commitCount s + commitCount t := by
  simp [commitCount]

theorem commitCount_map_fetch (l : List Nat) :
    commitCount (l.map Ev.fetch) = 0 := by
  simp [commitCount, Ev.isCommit]

theorem loopOffsets_succ (o k : Nat) :
    loopOffsets o (k + 1) = o :: loopOffsets (o + 20) k := by
  simp only [loopOffsets, List.range_succ_eq_map, List.map_cons, List.map_map,
    Nat.mul_zero, Nat.add_zero]
  refine congrArg (o :: ·) ?_
  apply List.map_congr_left
  intro i _
  simp only [Function.comp_apply]
  omega

theorem doCommit_trace (st : PState) :
    (doCommit st).trace =
      st.trace ++ [Ev.commitEv (doCommit st).sess.cities
        (doCommit st).sess.restaurants] := rfl

theorem doCommit_fetchOffsets (st : PState) :
    fetchOffsets (doCommit st).trace = fetchOffsets st.trace := by
  rw [doCommit_trace, fetchOffsets_append]
  simp [fetchOffsets, Ev.fetchOffset]

theorem doCommit_commitCount (st : PState) :
    commitCount (doCommit st).trace = commitCount st.trace + 1 := by
  rw [doCommit_trace, commitCount_append]
  simp [commitCount, Ev.isCommit]

/-! ### Lemmas about `queryOne` and `get_city_id` -/

theorem queryOne_singleton {α : Type} (x : α) :
    queryOne [x] = OneResult.found x := rfl

theorem queryOne_nil {α : Type} : queryOne ([] : List α) =
    OneResult.noResultFound := rfl

theorem queryOne_multi {α : Type} (x y : α) (t : List α) :
    queryOne (x :: y :: t) = OneResult.multipleResultsFound := rfl

theorem get_city_id_found (st : PState) (city : String) (c : City)
    (h : st.sess.cities.filter (fun x => x.name == city) = [c]) :
    get_city_id st city = Except.ok (c.city_id, st) := by
  simp [get_city_id, h, queryOne_singleton]

theorem get_city_id_notfound (st : PState) (city : String)
    (h : st.sess.cities.filter (fun x => x.name == city) = []) :
    get_city_id st city = Except.ok
      (st.sess.citySeq + st.sess.pendingCities.length,
       doCommit { st with sess := { st.sess with
         pendingCities := st.sess.pendingCities ++ [city] } }) := by
  simp [get_city_id, h, queryOne_nil]

theorem get_city_id_multi (st : PState) (city : String) (x y : City)
    (t : List City)
    (h : st.sess.cities.filter (fun z => z.name == city) = x :: y :: t) :
    get_city_id st city = Except.error (SeedErr.multipleResultsFound, st) := by
  simp [get_city_id, h, queryOne_multi]

/-! ### The pagination loop: full characterisation when fetches succeed -/

theorem loop_spec (env : Env) (city : String) (cid total : Nat)
    (hc : env.credsOk = true) :
    ∀ (fuel o : Nat) (st : PState), nIters total o ≤ fuel →
      ∃ st', loop env city cid total fuel o st =
          Except.ok (o + 20 * nIters total o, st') ∧
        st'.trace = st.trace ++ (loopOffsets o (nIters total o)).map Ev.fetch ∧
        st'.sess.cities = st.sess.cities ∧
        st'.sess.restaurants = st.sess.restaurants ∧
        st'.sess.pendingCities = st.sess.pendingCities ∧
        st'.sess.citySeq = st.sess.citySeq ∧
        st'.sess.restSeq = st.sess.restSeq := by
  intro fuel
  induction fuel with
  | zero =>
    intro o st h
    have h0 : nIters total o = 0 := Nat.le_zero.mp h
    refine ⟨st, ?_, ?_, rfl, rfl, rfl, rfl, rfl⟩
    · simp [loop, h0]
    · simp [h0, loopOffsets]
  | succ fuel ih =>
    intro o st h
    by_cases hcond : o < 1000 ∧ o < total
    · have hn1 : 1 ≤ nIters total o := by unfold nIters; omega
      have hstep : nIters total (o + 20) = nIters total o - 1 := by
        unfold nIters; omega
      obtain ⟨st', heq, htr, h1, h2, h3, h4, h5⟩ :=
        ih (o + 20) (stageAll cid (env.api city o).businesses
          { st with trace := st.trace ++ [Ev.fetch o] }) (by omega)
      have hunf : loop env city cid total (fuel + 1) o st =
          loop env city cid total fuel (o + 20)
            (stageAll cid (env.api city o).businesses
              { st with trace := st.trace ++ [Ev.fetch o] }) := by
        simp [loop, hcond, get_restaurants, hc]
      refine ⟨st', ?_, ?_, ?_, ?_, ?_, ?_, ?_⟩
      · rw [hunf, heq]
        have : o + 20 + 20 * nIters total (o + 20) =
            o + 20 * nIters total o := by omega
        rw [this]
      · rw [htr]
        have hlo : loopOffsets o (nIters total o) =
            o :: loopOffsets (o + 20) (nIters total o - 1) := by
          have := loopOffsets_succ o (nIters total o - 1)
          rw [← this]
          congr 1
          omega
        rw [hlo, hstep]
        simp [stageAll]
      · rw [h1]; simp [stageAll]
      · rw [h2]; simp [stageAll]
      · rw [h3]; simp [stageAll]
      · rw [h4]; simp [stageAll]
      · rw [h5]; simp [stageAll]
    · have h0 : nIters total o = 0 := by unfold nIters; omega
      refine ⟨st, ?_, ?_, rfl, rfl, rfl, rfl, rfl⟩
      · simp [loop, hcond, h0]
      · simp [h0, loopOffsets]

/-- Committing a session whose only staged city is `city` appends exactly one
city row, with the id taken from the city sequence. -/
theorem doCommit_single_city (st : PState) (city : String) :
    (doCommit { st with sess :=
        { st.sess with pendingCities := [city] } }).sess.cities =
      st.sess.cities ++ [{ city_id := st.sess.citySeq, name := city }] ∧
    (doCommit { st with sess :=
        { st.sess with pendingCities := [city] } }).sess.pendingCities = [] ∧
    (doCommit { st with sess :=
        { st.sess with pendingCities := [city] } }).sess.citySeq =
      st.sess.citySeq + 1 := by
  refine ⟨?_, rfl, rfl⟩
  simp [doCommit, Session.commit, List.enum, List.enumFrom]

/-! ### Claim theorems -/

/-- Claim C4: for every name, `get_city_id` returns the id of the existing
city on a unique exact-name match, leaving the session untouched (no new
row); when no city of that name exists it creates one, persists it through
the commit, and returns the newly generated id (the city sequence value). -/
theorem get_city_id_get_or_create (st : PState) (city : String) :
    (∀ c, st.sess.cities.filter (fun x => x.name == city) = [c] →
      get_city_id st city = Except.ok (c.city_id, st)) ∧
    (st.sess.cities.filter (fun x => x.name == city) = [] →
     st.sess.pendingCities = [] →
      ∃ st', get_city_id st city = Except.ok (st.sess.citySeq, st') ∧
        st'.sess.cities = st.sess.cities ++
          [{ city_id := st.sess.citySeq, name := city }] ∧
        st'.sess.pendingCities = []) := by
  constructor
  · intro c hc
    exact get_city_id_found st city c hc
  · intro h hp
    have h1 := get_city_id_notfound st city h
    rw [hp] at h1
    simp only [List.length_nil, Nat.add_zero, List.nil_append] at h1
    obtain ⟨hcities, hpend, _⟩ := doCommit_single_city st city
    exact ⟨_, h1, hcities, hpend⟩

/-- Witness for C4: with the city `Sunnyvale` stored under id 7, resolution
returns 7 and the state unchanged; on an empty database, resolving
`Palo Alto` creates and persists exactly that city row and returns its
fresh id 1. -/
theorem get_city_id_get_or_create_witness :
    get_city_id stSunnyvale "Sunnyvale" = Except.ok (7, stSunnyvale) ∧
    ∃ st', get_city_id pstate0 "Palo Alto" = Except.ok (1, st') ∧
      st'.sess.cities = [{ city_id := 1, name := "Palo Alto" }] ∧
      st'.sess.pendingCities = [] := by
  constructor
  · exact (get_city_id_get_or_create stSunnyvale "Sunnyvale").1
      { city_id := 7, name := "Sunnyvale" } (by decide)
  · obtain ⟨st', h1, h2, h3⟩ :=
      (get_city_id_get_or_create pstate0 "Palo Alto").2 (by decide) rfl
    exact ⟨st', h1, by simpa using h2, h3⟩

/-- Claim C5: for a name not present in the sink, resolving twice in
sequence returns on the second call exactly the id the first call returned,
with the state unchanged by the second call, and the sink holds exactly one
city of that name afterwards (get-or-create is idempotent). -/
theorem get_city_id_idempotent (st : PState) (city : String)
    (habs : st.sess.cities.filter (fun x => x.name == city) = [])
    (hp : st.sess.pendingCities = []) :
    ∃ id1 st1, get_city_id st city = Except.ok (id1, st1) ∧
      get_city_id st1 city = Except.ok (id1, st1) ∧
      (st1.sess.cities.filter (fun x => x.name == city)).length = 1 ∧
      st1.sess.pendingCities = [] := by
  have h1 := get_city_id_notfound st city habs
  rw [hp] at h1
  simp only [List.length_nil, Nat.add_zero, List.nil_append] at h1
  obtain ⟨hcities, hpend, _⟩ := doCommit_single_city st city
  have hfilter :
      ((doCommit { st with sess :=
          { st.sess with pendingCities := [city] } }).sess.cities.filter
        (fun x => x.name == city)) =
        [{ city_id := st.sess.citySeq, name := city }] := by
    rw [hcities, List.filter_append, habs]
    simp
  refine ⟨st.sess.citySeq, _, h1, ?_, ?_, hpend⟩
  · exact get_city_id_found _ city _ hfilter
  · rw [hfilter]
    rfl

/-- Witness for C5: on an empty database, resolving `Palo Alto` twice
returns the same id both times and leaves exactly one `Palo Alto` row. -/
theorem get_city_id_idempotent_witness :
    ∃ id1 st1, get_city_id pstate0 "Palo Alto" = Except.ok (id1, st1) ∧
      get_city_id st1 "Palo Alto" = Except.ok (id1, st1) ∧
      (st1.sess.cities.filter (fun x => x.name == "Palo Alto")).length = 1 ∧
      st1.sess.pendingCities = [] :=
  get_city_id_idempotent pstate0 "Palo Alto" (by decide) rfl

/-- Claim C8: a lookup matching more than one row is not handled:
`get_city_id` propagates the `MultipleResultsFound` anomaly to the caller
unchanged, and no city is created (the carried state is the input state). -/
theorem get_city_id_multi_match_propagates (st : PState) (city : String)
    (h : 2 ≤ (st.sess.cities.filter (fun x => x.name == city)).length) :
    get_city_id st city = Except.error (SeedErr.multipleResultsFound, st) := by
  cases hf : st.sess.cities.filter (fun x => x.name == city) with
  | nil => rw [hf] at h; simp at h
  | cons x rest =>
    cases rest with
    | nil => rw [hf] at h; simp at h
    | cons y t => exact get_city_id_multi st city x y t hf

/-- Witness for C8: with two rows named `Sunnyvale`, resolution raises
`MultipleResultsFound` and creates nothing. -/
theorem get_city_id_multi_match_propagates_witness :
    get_city_id stDup "Sunnyvale" =
      Except.error (SeedErr.multipleResultsFound, stDup) :=
  get_city_id_multi_match_propagates stDup "Sunnyvale" (by decide)

/-- Claim C7: with committed restaurant ids `{3, 7, 5}` (and nothing left
staged), `set_val_restaurant_id` computes the maximum id 7 and resets the
restaurant id sequence so that the next generated id is `7 + 1 = 8`
(committed rows receive consecutive ids starting at `restSeq`, so `restSeq`
is exactly the next id the sequence will hand out). -/
theorem set_val_restaurant_id_sets_next_id (st : PState)
    (r1 r2 r3 : Restaurant)
    (h : st.sess.restaurants = [(3, r1), (7, r2), (5, r3)])
    (hp : st.sess.pendingRests = []) :
    (st.sess.restaurants.map Prod.fst).max? = some 7 ∧
    ∃ st', set_val_restaurant_id st = Except.ok st' ∧
      st'.sess.restSeq = 8 := by
  have hm : (st.sess.restaurants.map Prod.fst).max? = some 7 := by
    rw [h]; rfl
  refine ⟨hm, doCommit { st with sess := { st.sess with restSeq := 7 + 1 } },
    ?_, ?_⟩
  · unfold set_val_restaurant_id
    rw [hm]
  · simp [doCommit, Session.commit, hp]

/-- Witness for C7: a concrete database with restaurant ids `{3, 7, 5}`. -/
theorem set_val_restaurant_id_sets_next_id_witness :
    ∃ st', set_val_restaurant_id
        { sess := { cities := [], restaurants := [(3, rRow), (7, rRow), (5, rRow)]
                  , pendingCities := [], pendingRests := []
                  , citySeq := 1, restSeq := 6 }
        , trace := [] } = Except.ok st' ∧
      st'.sess.restSeq = 8 :=
  (set_val_restaurant_id_sets_next_id _ rRow rRow rRow rfl rfl).2

/-- The loop performs one fetch per iteration. -/
theorem loopOffsets_length (o n : Nat) : (loopOffsets o n).length = n := by
  simp [loopOffsets]

/-- As long as the name matches at most one row, `get_city_id` succeeds; it
never fetches, and starting from a session with nothing staged it leaves the
committed restaurants and the staged set untouched. -/
theorem get_city_id_ok_of_le_one (st : PState) (city : String)
    (hle : (st.sess.cities.filter (fun x => x.name == city)).length ≤ 1) :
    ∃ cid st1, get_city_id st city = Except.ok (cid, st1) ∧
      fetchOffsets st1.trace = fetchOffsets st.trace ∧
      (st.sess.pendingRests = [] →
        st1.sess.restaurants = st.sess.restaurants ∧
        st1.sess.pendingRests = []) := by
  cases hf : st.sess.cities.filter (fun x => x.name == city) with
  | nil =>
    refine ⟨_, _, get_city_id_notfound st city hf, ?_, ?_⟩
    · rw [doCommit_fetchOffsets]
    · intro hp
      refine ⟨?_, rfl⟩
      simp [doCommit, Session.commit, hp]
  | cons x rest =>
    cases rest with
    | nil =>
      exact ⟨x.city_id, st, get_city_id_found st city x hf, rfl,
        fun hp => ⟨rfl, hp⟩⟩
    | cons y t =>
      rw [hf] at hle
      simp at hle

/-- Claim C2: with reported total 45, the pagination loop performs exactly 3
in-loop fetches, at offsets 0, 20 and 40 in that order (the offset advances
by 20 each iteration), and exits with the offset at 60. -/
theorem loop_total_45 (env : Env) (city : String) (cid : Nat) (st : PState)
    (hc : env.credsOk = true) :
    ∃ st', loop env city cid 45 50 0 st = Except.ok (60, st') ∧
      fetchOffsets st'.trace = fetchOffsets st.trace ++ [0, 20, 40] := by
  obtain ⟨st', heq, htr, -, -, -, -, -⟩ :=
    loop_spec env city cid 45 hc 50 0 st (by decide)
  have hn : nIters 45 0 = 3 := by decide
  rw [hn] at heq htr
  refine ⟨st', ?_, ?_⟩
  · have h60 : 0 + 20 * 3 = 60 := rfl
    rw [h60] at heq
    exact heq
  · rw [htr, fetchOffsets_append, fetchOffsets_map_fetch]
    congr 1

/-- Witness for C2: a concrete API reporting total 45. -/
theorem loop_total_45_witness :
    ∃ st', loop env45 "Sunnyvale" 7 45 50 0 pstate0 = Except.ok (60, st') ∧
      fetchOffsets st'.trace = [0, 20, 40] := by
  obtain ⟨st', h1, h2⟩ := loop_total_45 env45 "Sunnyvale" 7 pstate0 rfl
  refine ⟨st', h1, ?_⟩
  rw [h2]
  rfl

/-- Claim C3: for every reported total the pagination loop terminates by
falsifying the loop condition — never by exhausting the fuel bound 50 of the
embedding — after `nIters total 0 ≤ 50` fetches; and for `total ≥ 1000` the
in-loop fetch offsets are exactly 0, 20, ..., 980 (50 fetches), however
large the total is. -/
theorem loop_terminates_and_bounded (env : Env) (city : String)
    (cid total : Nat) (st : PState) (hc : env.credsOk = true) :
    ∃ o' st', loop env city cid total 50 0 st = Except.ok (o', st') ∧
      ¬(o' < 1000 ∧ o' < total) ∧
      fetchOffsets st'.trace =
        fetchOffsets st.trace ++ loopOffsets 0 (nIters total 0) ∧
      nIters total 0 ≤ 50 ∧
      (1000 ≤ total → loopOffsets 0 (nIters total 0) = loopOffsets 0 50) := by
  have hle : nIters total 0 ≤ 50 := by unfold nIters; omega
  obtain ⟨st', heq, htr, -, -, -, -, -⟩ :=
    loop_spec env city cid total hc 50 0 st hle
  refine ⟨0 + 20 * nIters total 0, st', heq, ?_, ?_, hle, ?_⟩
  · unfold nIters
    omega
  · rw [htr, fetchOffsets_append, fetchOffsets_map_fetch]
  · intro h1000
    have h50 : nIters total 0 = 50 := by unfold nIters; omega
    rw [h50]

/-- Witness for C3: a concrete API reporting total 2000 — the loop stops
after the 50 fetches 0, 20, ..., 980. -/
theorem loop_terminates_and_bounded_witness :
    ∃ o' st', loop env2000 "Sunnyvale" 7 2000 50 0 pstate0 =
        Except.ok (o', st') ∧
      ¬(o' < 1000 ∧ o' < 2000) ∧
      fetchOffsets st'.trace = loopOffsets 0 50 ∧
      nIters 2000 0 ≤ 50 := by
  obtain ⟨o', st', h1, h2, h3, h4, h5⟩ :=
    loop_terminates_and_bounded env2000 "Sunnyvale" 7 2000 pstate0 rfl
  refine ⟨o', st', h1, h2, ?_, h4⟩
  rw [h3, h5 (by omega)]
  rfl

/-- Claim C1 (amended): for a city already present in the sink under a
unique name, one ingestion pass stages all child records in a single
uncommitted transaction and performs exactly one commit, as the last action
of the pass — the sole durability point. (As stated over every city, the
claim fails: when the city is absent, `get_city_id` commits the new city row
before the loop; see the counterexample.) -/
theorem load_restaurants_commits_once_when_city_exists (env : Env)
    (city : String) (st : PState) (c : City) (hc : env.credsOk = true)
    (hone : st.sess.cities.filter (fun x => x.name == city) = [c]) :
    ∃ st' mid, load_restaurants env city st = Except.ok st' ∧
      st'.trace = st.trace ++ mid ++
        [Ev.commitEv st'.sess.cities st'.sess.restaurants] ∧
      (∀ e ∈ mid, e.isCommit = false) := by
  have hl : nIters (env.api city 0).total 0 ≤ 50 := by unfold nIters; omega
  obtain ⟨st3, heq, htr, -, -, -, -, -⟩ :=
    loop_spec env city c.city_id (env.api city 0).total hc 50 0
      { st with trace := st.trace ++ [Ev.fetch 0] } hl
  refine ⟨doCommit st3,
    Ev.fetch 0 ::
      (loopOffsets 0 (nIters (env.api city 0).total 0)).map Ev.fetch,
    ?_, ?_, ?_⟩
  · unfold load_restaurants
    rw [get_city_id_found st city c hone]
    simp only [get_restaurants, hc, if_true]
    rw [heq]
  · rw [doCommit_trace, htr]
    simp
  · intro e he
    rcases List.mem_cons.mp he with rfl | hmem
    · rfl
    · obtain ⟨o, -, rfl⟩ := List.mem_map.mp hmem
      rfl

/-- Witness for C1 (amended): with `Sunnyvale` already stored, the run makes
its only commit as the final event. -/
theorem load_restaurants_commits_once_when_city_exists_witness :
    ∃ st' mid, load_restaurants env5 "Sunnyvale" stSunnyvale =
        Except.ok st' ∧
      st'.trace = mid ++
        [Ev.commitEv st'.sess.cities st'.sess.restaurants] ∧
      (∀ e ∈ mid, e.isCommit = false) := by
  obtain ⟨st', mid, h1, h2, h3⟩ :=
    load_restaurants_commits_once_when_city_exists env5 "Sunnyvale"
      stSunnyvale { city_id := 7, name := "Sunnyvale" } rfl (by decide)
  refine ⟨st', mid, h1, ?_, h3⟩
  rw [h2]
  rfl

/-- Counterexample to C1 as stated: on an empty database the pass performs
two commits, and the very first trace event is already a commit — issued
inside `get_city_id`, before any fetch — that makes the new `Sunnyvale` row
durable, so the final commit is not the sole durability point. -/
theorem load_restaurants_new_city_commits_early :
    ∃ st', load_restaurants env0 "Sunnyvale" pstate0 = Except.ok st' ∧
      commitCount st'.trace = 2 ∧
      st'.trace.head? =
        some (Ev.commitEv [{ city_id := 1, name := "Sunnyvale" }] []) := by
  refine ⟨_, rfl, ?_, ?_⟩ <;> rfl

/-- Claim C6 (amended): for an API reporting total 3 with a page of 1 record
at offset 0 and a page of 2 records at offset 20, the loop performs exactly
one in-loop fetch, at offset 0 (20 ≥ 3 stops the loop, so the second page is
never requested): the sink ends up with exactly the 1 record of the first
page, referencing the resolved parent id 7, committed only by the single
final commit, which is the last action of the pass. -/
theorem load_restaurants_total3_stages_first_page_only :
    ∃ st', load_restaurants env6 "Sunnyvale" stSunnyvale = Except.ok st' ∧
      fetchOffsets st'.trace = [0, 0] ∧
      st'.sess.restaurants.length = 1 ∧
      (∀ r ∈ st'.sess.restaurants, r.2.city_id = 7) ∧
      commitCount st'.trace = 1 ∧
      st'.trace.getLast? =
        some (Ev.commitEv st'.sess.cities st'.sess.restaurants) := by
  refine ⟨_, rfl, ?_, ?_, ?_, ?_, ?_⟩ <;> decide

/-- Counterexample to C6 as stated: in that same run the sink holds exactly
1 staged child record after the loop, not 3 — the loop never reaches the
page at offset 20 because the offset jump (20) already meets the total 3. -/
theorem load_restaurants_total3_counterexample :
    ∃ st', load_restaurants env6 "Sunnyvale" stSunnyvale = Except.ok st' ∧
      st'.sess.restaurants.length = 1 ∧
      st'.sess.restaurants.length ≠ 3 := by
  refine ⟨_, rfl, ?_, ?_⟩ <;> decide

/-- Claim C9 (amended): with a missing or malformed credential file the
failure propagates unrecovered out of `load_restaurants` at the first fetch
attempt: no page is ever fetched and no restaurant is staged or persisted by
the pass. It is not a startup error, though: city resolution has already
run, and may itself have committed a new city row (see the
counterexample). -/
theorem load_restaurants_cred_failure_aborts_pass (env : Env) (city : String)
    (st : PState) (hc : env.credsOk = false)
    (hle : (st.sess.cities.filter (fun x => x.name == city)).length ≤ 1)
    (hp : st.sess.pendingRests = []) :
    ∃ stE, load_restaurants env city st =
        Except.error (SeedErr.credentialError, stE) ∧
      fetchOffsets stE.trace = fetchOffsets st.trace ∧
      stE.sess.restaurants = st.sess.restaurants ∧
      stE.sess.pendingRests = [] := by
  obtain ⟨cid, st1, hg, hf1, hrest⟩ := get_city_id_ok_of_le_one st city hle
  obtain ⟨hr1, hr2⟩ := hrest hp
  refine ⟨st1, ?_, hf1, hr1, hr2⟩
  unfold load_restaurants
  rw [hg]
  simp [get_restaurants, hc]

/-- Witness for C9 (amended): bad credentials on an empty database. -/
theorem load_restaurants_cred_failure_aborts_pass_witness :
    ∃ stE, load_restaurants env9 "Sunnyvale" pstate0 =
        Except.error (SeedErr.credentialError, stE) ∧
      fetchOffsets stE.trace = [] ∧
      stE.sess.restaurants = [] ∧
      stE.sess.pendingRests = [] := by
  obtain ⟨stE, h1, h2, h3, h4⟩ :=
    load_restaurants_cred_failure_aborts_pass env9 "Sunnyvale" pstate0 rfl
      (by decide) rfl
  exact ⟨stE, h1, by rw [h2]; rfl, by rw [h3]; rfl, h4⟩

/-- Counterexample to C9 as stated: with bad credentials and a city not yet
in the database, the process does not fail before ingestion work is done —
`get_city_id` has already created and committed the `Sunnyvale` city row
(the trace of the error state records that commit) before the credential
failure surfaces at the first fetch. -/
theorem cred_failure_after_city_commit :
    load_restaurants env9 "Sunnyvale" pstate0 =
      Except.error (SeedErr.credentialError,
        { sess := { cities := [{ city_id := 1, name := "Sunnyvale" }]
                  , restaurants := [], pendingCities := [], pendingRests := []
                  , citySeq := 2, restSeq := 1 }
        , trace := [Ev.commitEv [{ city_id := 1, name := "Sunnyvale" }] []] }) :=
  rfl

/-- Claim C10: whenever the loop is entered (the first response reports a
positive total), the search API is called exactly once more than the number
of loop iterations: the initial call at offset 0 reads the total, and the
loop's first iteration fetches offset 0 again, so the first page is
requested twice. -/
theorem load_restaurants_first_page_fetched_twice (env : Env) (city : String)
    (st : PState) (hc : env.credsOk = true)
    (hle : (st.sess.cities.filter (fun x => x.name == city)).length ≤ 1)
    (hpos : 0 < (env.api city 0).total) :
    ∃ st', load_restaurants env city st = Except.ok st' ∧
      1 ≤ nIters (env.api city 0).total 0 ∧
      fetchOffsets st'.trace = fetchOffsets st.trace ++
        0 :: 0 :: loopOffsets 20 (nIters (env.api city 0).total 0 - 1) ∧
      (fetchOffsets st'.trace).length = (fetchOffsets st.trace).length +
        (1 + nIters (env.api city 0).total 0) := by
  obtain ⟨cid, st1, hg, hf1, -⟩ := get_city_id_ok_of_le_one st city hle
  have hl : nIters (env.api city 0).total 0 ≤ 50 := by unfold nIters; omega
  have hn1 : 1 ≤ nIters (env.api city 0).total 0 := by unfold nIters; omega
  obtain ⟨st3, heq, htr, -, -, -, -, -⟩ :=
    loop_spec env city cid (env.api city 0).total hc 50 0
      { st1 with trace := st1.trace ++ [Ev.fetch 0] } hl
  have hload : load_restaurants env city st = Except.ok (doCommit st3) := by
    unfold load_restaurants
    rw [hg]
    simp only [get_restaurants, hc, if_true]
    rw [heq]
  have hlist : fetchOffsets (doCommit st3).trace = fetchOffsets st.trace ++
      0 :: loopOffsets 0 (nIters (env.api city 0).total 0) := by
    rw [doCommit_fetchOffsets, htr]
    show fetchOffsets ((st1.trace ++ [Ev.fetch 0]) ++
        (loopOffsets 0 (nIters (env.api city 0).total 0)).map Ev.fetch) = _
    rw [fetchOffsets_append, fetchOffsets_append, fetchOffsets_map_fetch, hf1]
    simp [fetchOffsets, Ev.fetchOffset]
  have hsplit : loopOffsets 0 (nIters (env.api city 0).total 0) =
      0 :: loopOffsets 20 (nIters (env.api city 0).total 0 - 1) := by
    have h1 := loopOffsets_succ 0 (nIters (env.api city 0).total 0 - 1)
    rw [← h1]
    congr 1
    omega
  refine ⟨doCommit st3, hload, hn1, ?_, ?_⟩
  · rw [hlist, hsplit]
  · rw [hlist]
    simp [loopOffsets_length]
    omega

/-- Witness for C10: total 5 for a stored city — fetch offsets 0 then 0. -/
theorem load_restaurants_first_page_fetched_twice_witness :
    ∃ st', load_restaurants env5 "Sunnyvale" stSunnyvale = Except.ok st' ∧
      1 ≤ nIters 5 0 ∧
      fetchOffsets st'.trace = [0, 0] := by
  obtain ⟨st', h1, h2, h3, -⟩ :=
    load_restaurants_first_page_fetched_twice env5 "Sunnyvale" stSunnyvale
      rfl (by decide) (by decide)
  refine ⟨st', h1, h2, ?_⟩
  rw [h3]
  rfl

end Seed
